import Mathlib

/-!
Shallow embedding of `src/In PC/Controller.py` from
StanleyChueh/Turtlebot_Calibration_AprilTag: a ROS2 node closing two PID
feedback loops (longitudinal distance and angular orientation) and declaring
the target reached when both have converged.

Real-valued quantities are modelled as rationals.  The two message callbacks
become pure state-transition functions returning the updated controller state
together with the list of `Twist` messages delivered on `cmd_vel` during the
call.  `rclpy.Node.destroy_node` is modelled by a `destroyed` flag; publishing
on a destroyed node raises `InvalidHandle` in rclpy, so no message is
delivered, which we model by `publish` returning the empty list once the node
is destroyed (the publish is the last statement of the callback wherever it
follows destruction, so the raised exception has no further effect to model).
-/

/-- Python `abs` on an integer. -/
def pyAbs (z : ℤ) : ℤ := if z < 0 then -z else z

/-- Python `abs` on a float, modelled on ℚ. -/
def pyAbsQ (q : ℚ) : ℚ := if q < 0 then -q else q

/-- Python two-argument `min`. -/
def pyMin (a b : ℚ) : ℚ := if a ≤ b then a else b

/-- Python two-argument `max`. -/
def pyMax (a b : ℚ) : ℚ := if b ≤ a then a else b

/-- Python implicitly converts a `bool` to the integer `0` or `1` when it is
passed to `abs`, as in the source expression `abs(distance_error < 0)`. -/
def pyBool (b : Bool) : ℤ := if b then 1 else 0

/-- State of one `simple_pid.PID` instance.

Modelled from the spec: the `simple_pid` library is an external dependency,
not part of this repository; §3 (PIDState) and §4.1 of the spec give its
contract.  Gains, setpoint, the integral accumulator and the previous-error
memory are the persistent state. -/
structure PIDState where
  kp : ℚ
  ki : ℚ
  kd : ℚ
  setpoint : ℚ
  integral : ℚ
  prevError : ℚ
deriving Repr, DecidableEq

/-- One evaluation call of a PID instance.

Modelled from the spec (§4.1): accumulate the integral term, compute the
derivative term as the change in error since the previous call, and combine
`gain_p*error + gain_i*integral + gain_d*derivative`; the output is unclamped
(clamping is the caller's responsibility), and the call mutates the integral
accumulator and the previous-error memory. -/
def PIDState.evaluate (p : PIDState) (error : ℚ) : ℚ × PIDState :=
  let integral := p.integral + error
  let derivative := error - p.prevError
  (p.kp * error + p.ki * integral + p.kd * derivative,
   { p with integral := integral, prevError := error })

/-- A `geometry_msgs/Twist` message as used by the controller: only
`linear.x` and `angular.z` are ever written; a fresh `Twist()` has all
components zero. -/
structure Twist where
  linear_x : ℚ := 0
  angular_z : ℚ := 0
deriving Repr, DecidableEq

/-- The mutable state of the `Controller` node (`Controller.__init__`). -/
structure Controller where
  time : List ℕ
  distance_errors : List ℚ
  orientation_errors : List ℚ
  right_turns : ℕ
  left_turns : ℕ
  distance_condition_met : Bool
  angle_condition_met : Bool
  pid_distance : PIDState
  pid_orientation : PIDState
  target_reached : Bool
  keyboard_interrupt_occurred : Bool
  angle_correct : Bool
  distance_correct : Bool
  destroyed : Bool
deriving Repr, DecidableEq

/-- The state built by `Controller.__init__`: empty logs, zero turn counters,
`PID(1.0, 0.2, 0.0, setpoint=6.0)` for distance,
`PID(0.5, 0.1, 0.5, setpoint=0.0)` for orientation, all flags false. -/
def Controller.init : Controller :=
  { time := []
    distance_errors := []
    orientation_errors := []
    right_turns := 0
    left_turns := 0
    distance_condition_met := false
    angle_condition_met := false
    pid_distance :=
      { kp := 1, ki := 1/5, kd := 0, setpoint := 6, integral := 0, prevError := 0 }
    pid_orientation :=
      { kp := 1/2, ki := 1/10, kd := 1/2, setpoint := 0, integral := 0, prevError := 0 }
    target_reached := false
    keyboard_interrupt_occurred := false
    angle_correct := false
    distance_correct := false
    destroyed := false }

/-- Model of `self.destroy_node()`. -/
def Controller.destroy_node (s : Controller) : Controller :=
  { s with destroyed := true }

/-- Model of `self.publisher_velocity.publish(t)`: the messages actually delivered on
`cmd_vel` by this call.  On a destroyed node rclpy raises `InvalidHandle`
instead of delivering the message. -/
def Controller.publish (s : Controller) (t : Twist) : List Twist :=
  if s.destroyed then [] else [t]

/-- Model of `Controller.distance_callback(self, msg)` with `msg.x = msgx`, lines
49-97 of the source.  Returns the updated state and the `cmd_vel` messages
delivered during the call. -/
def Controller.distance_callback (s : Controller) (msgx : ℚ) : Controller × List Twist :=
  if s.target_reached then (s, [])
  else
    let distance_variation := msgx
    let distance_error := distance_variation - 13
    let r := s.pid_distance.evaluate distance_error
    let control_signal := pyMax (pyMin r.1 (1/5)) (-(1/5))
    let s := { s with
      pid_distance := r.2
      time := s.time ++ [s.time.length]
      distance_errors := s.distance_errors ++ [distance_error] }
    let twist : Twist := {}
    if control_signal < 0 ∨ distance_error > 3/10 then
      let twist := { twist with linear_x := control_signal }
      let s := { s with
        distance_correct := decide (0 < distance_error ∧ distance_error < 3/10) }
      if s.angle_correct ∧ 0 < distance_error ∧ distance_error < 3/10 then
        let s := { s with target_reached := true, angle_correct := false }
        let s := s.destroy_node
        (s, s.publish twist)
      else
        (s, s.publish twist)
    else if pyAbs (pyBool (decide (distance_error < 0))) ≠ 0 then
      let s := { s with distance_correct := false }
      let twist := { twist with linear_x := -control_signal }
      (s, s.publish twist)
    else
      (s, s.publish twist)

/-- Model of `Controller.check_target_reached(self)`, lines 152-157 of the source. -/
def Controller.check_target_reached (s : Controller) : Controller :=
  if s.distance_correct ∧ s.angle_correct then
    ({ s with target_reached := true }).destroy_node
  else s

/-- Model of `Controller.angles_callback(self, msg)` with `msg.y = msgy`, lines
101-150 of the source.  Returns the updated state and the `cmd_vel` messages
delivered during the call. -/
def Controller.angles_callback (s : Controller) (msgy : ℚ) : Controller × List Twist :=
  if s.target_reached then (s, [])
  else
    let angle_variation := msgy
    if 0 < pyAbsQ angle_variation ∧ pyAbsQ angle_variation ≤ 11/200 then
      let twist_angular_z : ℚ := 0
      let s := { s with orientation_errors := s.orientation_errors ++ [angle_variation] }
      let twist : Twist := { angular_z := twist_angular_z }
      let s := { s with angle_correct := true }
      (s, s.publish twist)
    else
      let r := s.pid_orientation.evaluate angle_variation
      let control_signal := pyMax (pyMin r.1 (1/10)) (-(1/10))
      let twist_angular_z := -control_signal
      let s := { s with
        pid_orientation := r.2
        orientation_errors := s.orientation_errors ++ [angle_variation] }
      let twist : Twist := { angular_z := twist_angular_z }
      let s :=
        if twist_angular_z < 0 then { s with left_turns := s.left_turns + 1 }
        else if twist_angular_z > 0 then { s with right_turns := s.right_turns + 1 }
        else s
      let out := s.publish twist
      let s := { s with angle_correct := false }
      let s := s.check_target_reached
      (s, out)

/-- One inbound message: a sample on `distance_variation` or on
`angle_variation`.  The dispatcher serializes the two callbacks but gives no
ordering guarantee, so a run is an arbitrary interleaving. -/
inductive Event where
  | dist (x : ℚ)
  | ang (y : ℚ)
deriving Repr, DecidableEq

/-- Dispatch of one inbound message to its callback. -/
def Controller.step (s : Controller) : Event → Controller × List Twist
  | .dist x => s.distance_callback x
  | .ang y => s.angles_callback y

/-- A run: process a sequence of inbound messages in order, collecting every
`cmd_vel` message delivered along the way. -/
def Controller.run (s : Controller) : List Event → Controller × List Twist
  | [] => (s, [])
  | e :: es =>
    let r := s.step e
    let r2 := r.1.run es
    (r2.1, r.2 ++ r2.2)

/-! ### Helper lemmas -/

/-- Both callbacks are guarded by `if not self.target_reached`: once the flag
is set, a dispatched message leaves the state untouched and delivers no
command. -/
theorem Controller.step_of_target_reached (s : Controller) (e : Event)
    (h : s.target_reached = true) : s.step e = (s, []) := by
  cases e <;>
    simp [Controller.step, Controller.distance_callback, Controller.angles_callback, h]

/-- A whole run from a state with `target_reached` set is a no-op. -/
theorem Controller.run_of_target_reached (s : Controller) (evs : List Event)
    (h : s.target_reached = true) : s.run evs = (s, []) := by
  induction evs with
  | nil => rfl
  | cons e es ih =>
    simp [Controller.run, Controller.step_of_target_reached s e h, ih]

/-- Runs compose: processing `a ++ b` is processing `a`, then `b` from the
resulting state, concatenating the delivered commands. -/
theorem Controller.run_append (s : Controller) (a b : List Event) :
    s.run (a ++ b) =
      (((s.run a).1.run b).1, (s.run a).2 ++ ((s.run a).1.run b).2) := by
  induction a generalizing s with
  | nil => simp [Controller.run]
  | cons e es ih =>
    simp [Controller.run, ih, List.append_assoc]

/-! ### Claim theorems -/

/-- C1: over any run, `target_reached` transitions from false to true at most
once — once it is true after some prefix, the remainder of the run changes
nothing (so the flag never reverts and never transitions again) — and no
motion command is delivered after that transition (the commands of the whole
run are exactly the commands of the prefix).  Within the very step that sets
the flag, the only potentially following publish (line 97) occurs after
`destroy_node()` and delivers nothing. -/
theorem Controller.target_reached_terminal (s : Controller) (evs₁ evs₂ : List Event)
    (h : (s.run evs₁).1.target_reached = true) :
    (s.run (evs₁ ++ evs₂)).1 = (s.run evs₁).1 ∧
    (s.run (evs₁ ++ evs₂)).2 = (s.run evs₁).2 := by
  rw [Controller.run_append]
  rw [Controller.run_of_target_reached _ _ h]
  simp

/-- Witness for C1: a concrete run (dead-band angle sample, a far distance
sample, then a near one) reaches `target_reached = true`, and appending two
further samples changes neither the state nor the delivered commands. -/
theorem Controller.target_reached_terminal_witness :
    (Controller.init.run [.ang (1/20), .dist 10, .dist (131/10)]).1.target_reached = true ∧
    ((Controller.init.run ([.ang (1/20), .dist 10, .dist (131/10)] ++ [.dist 13, .ang 1])).1 =
        (Controller.init.run [.ang (1/20), .dist 10, .dist (131/10)]).1 ∧
      (Controller.init.run ([.ang (1/20), .dist 10, .dist (131/10)] ++ [.dist 13, .ang 1])).2 =
        (Controller.init.run [.ang (1/20), .dist 10, .dist (131/10)]).2) := by
  have h : (Controller.init.run [.ang (1/20), .dist 10, .dist (131/10)]).1.target_reached = true := by
    norm_num [Controller.init, Controller.run, Controller.step, Controller.distance_callback,
      Controller.angles_callback, Controller.check_target_reached, Controller.destroy_node,
      PIDState.evaluate, pyMin, pyMax, pyBool, pyAbs, pyAbsQ, Controller.publish]
  exact ⟨h, Controller.target_reached_terminal Controller.init _ _ h⟩

/-- C3: a call to `check_target_reached` made from the angle callback never
sets `target_reached`, because `angle_correct` is assigned `False`
immediately before the call; so the angle callback can never flip the flag
(it can only become true inside the distance callback). -/
theorem Controller.angles_callback_never_sets_target (s : Controller) (m : ℚ)
    (h : s.target_reached = false) :
    (s.angles_callback m).1.target_reached = false := by
  simp only [Controller.angles_callback, h]
  split
  · simp [h]
  · split
    · simp [h]
    · simp only [Controller.check_target_reached]
      split_ifs <;> simp_all

/-- Witness for C3: from the initial state, an angle sample outside the
dead-band does not set `target_reached`. -/
theorem Controller.angles_callback_never_sets_target_witness :
    Controller.init.target_reached = false ∧
    (Controller.init.angles_callback 1).1.target_reached = false :=
  ⟨rfl, Controller.angles_callback_never_sets_target Controller.init 1 rfl⟩

/-- C7: a callback invocation (distance or angle) arriving once
`target_reached` is true is an idempotent no-op: every state field is left
unchanged and no motion command is delivered. -/
theorem Controller.callbacks_noop_after_target (s : Controller) (m₁ m₂ : ℚ)
    (h : s.target_reached = true) :
    s.distance_callback m₁ = (s, []) ∧ s.angles_callback m₂ = (s, []) := by
  constructor
  · simp [Controller.distance_callback, h]
  · simp [Controller.angles_callback, h]

/-- C2: whenever `target_reached` is set to true — by the inline check in the
distance callback or by `check_target_reached` — both convergence flags are
true in the program state at that instant.  For the inline path, at the
assignment on line 83 `distance_correct` holds the value just stored on line
77 (it is true and survives into the post-state) and `angle_correct` still
holds its pre-call value (it is reset only on the following line), so the
simultaneity instant is witnessed by the post-state's `distance_correct` and
the pre-state's `angle_correct`.  For `check_target_reached`, its guard is
exactly the conjunction of the two flags. -/
theorem Controller.rendezvous (s : Controller) (m : ℚ) :
    (s.target_reached = false →
      (s.distance_callback m).1.target_reached = true →
      s.angle_correct = true ∧ (s.distance_callback m).1.distance_correct = true) ∧
    (s.target_reached = false →
      s.check_target_reached.target_reached = true →
      s.distance_correct = true ∧ s.angle_correct = true) := by
  constructor
  · intro h ht
    simp only [Controller.distance_callback, h] at ht ⊢
    split_ifs at ht ⊢ with h1 h2 h3 <;> simp_all [Controller.destroy_node]
  · intro h hc
    simp only [Controller.check_target_reached] at hc
    split_ifs at hc with hg
    · exact ⟨hg.1, hg.2⟩
    · rw [h] at hc
      exact absurd hc (by simp)

/-- Witness for C2: a concrete state with `angle_correct` set and a distance
sample whose error lies in `(0, 0.3)` with a negative control signal triggers
the inline transition; both flag conclusions hold, and the
`check_target_reached` conjunct also fires on a state with both flags set. -/
theorem Controller.rendezvous_witness :
    ({ Controller.init with
        angle_correct := true
        pid_distance := { kp := 1, ki := 1/5, kd := 0, setpoint := 6,
                          integral := -3, prevError := -3 } } : Controller).target_reached
        = false ∧
    (({ Controller.init with
        angle_correct := true
        pid_distance := { kp := 1, ki := 1/5, kd := 0, setpoint := 6,
                          integral := -3, prevError := -3 } } : Controller).distance_callback
        (131/10)).1.target_reached = true ∧
    (({ Controller.init with
        angle_correct := true
        pid_distance := { kp := 1, ki := 1/5, kd := 0, setpoint := 6,
                          integral := -3, prevError := -3 } } : Controller).angle_correct = true ∧
      (({ Controller.init with
          angle_correct := true
          pid_distance := { kp := 1, ki := 1/5, kd := 0, setpoint := 6,
                            integral := -3, prevError := -3 } } : Controller).distance_callback
          (131/10)).1.distance_correct = true) ∧
    (({ Controller.init with
        distance_correct := true, angle_correct := true } : Controller).target_reached = false ∧
      ({ Controller.init with
        distance_correct := true,
        angle_correct := true } : Controller).check_target_reached.target_reached = true ∧
      (({ Controller.init with
          distance_correct := true, angle_correct := true } : Controller).distance_correct = true ∧
        ({ Controller.init with
          distance_correct := true, angle_correct := true } : Controller).angle_correct = true)) := by
  have ht :
      (({ Controller.init with
          angle_correct := true
          pid_distance := { kp := 1, ki := 1/5, kd := 0, setpoint := 6,
                            integral := -3, prevError := -3 } } : Controller).distance_callback
          (131/10)).1.target_reached = true := by
    norm_num [Controller.init, Controller.distance_callback, PIDState.evaluate, pyMin, pyMax,
      pyBool, pyAbs, Controller.publish, Controller.destroy_node]
  have hc :
      ({ Controller.init with
        distance_correct := true,
        angle_correct := true } : Controller).check_target_reached.target_reached = true := rfl
  exact ⟨rfl, ht, (Controller.rendezvous _ (131/10)).1 rfl ht,
    rfl, hc, (Controller.rendezvous _ 0).2 rfl hc⟩

/-- C10: for every distance sample processed before termination, the error
fed to the distance PID (and appended to the error log) is
`msg.x - 13.0`, the post-call PID state is the result of evaluating the PID
at that error, and the distance PID instance itself is configured with
setpoint `6.0`. -/
theorem Controller.distance_error_feed (s : Controller) (m : ℚ)
    (h : s.target_reached = false) :
    (s.distance_callback m).1.distance_errors = s.distance_errors ++ [m - 13] ∧
    (s.distance_callback m).1.pid_distance = (s.pid_distance.evaluate (m - 13)).2 ∧
    Controller.init.pid_distance.setpoint = 6 := by
  refine ⟨?_, ?_, rfl⟩ <;>
    (simp only [Controller.distance_callback, h]
     split_ifs <;> simp_all [Controller.destroy_node])

/-- Witness for C10: the initial state processing the sample `20.0` logs and
feeds the error `7.0`. -/
theorem Controller.distance_error_feed_witness :
    Controller.init.target_reached = false ∧
    ((Controller.init.distance_callback 20).1.distance_errors =
        Controller.init.distance_errors ++ [20 - 13] ∧
      (Controller.init.distance_callback 20).1.pid_distance =
        (Controller.init.pid_distance.evaluate (20 - 13)).2 ∧
      Controller.init.pid_distance.setpoint = 6) :=
  ⟨rfl, Controller.distance_error_feed Controller.init 20 rfl⟩

/-- C4 counterexample: the claim says that when neither branch condition
holds (clamped control signal ≥ 0, error ≤ 0.3, error ≥ 0) no motion command
is published for the sample.  In the source, the `publish` on line 97 sits
outside both branches and executes for every sample processed while
`target_reached` is false, so a (zero-velocity, default `Twist`) command IS
delivered: concretely, the initial state processing the sample `13.2`
(error `0.2`, clamped control signal `0.2`) satisfies every hypothesis of the
claim yet delivers a command. -/
theorem Controller.suppressed_branch_counterexample :
    Controller.init.target_reached = false ∧
    0 ≤ pyMax (pyMin (Controller.init.pid_distance.evaluate (66/5 - 13)).1 (1/5)) (-(1/5)) ∧
    (66/5 : ℚ) - 13 ≤ 3/10 ∧ (0 : ℚ) ≤ 66/5 - 13 ∧
    (Controller.init.distance_callback (66/5)).2 ≠ [] := by
  refine ⟨rfl, ?_, by norm_num, by norm_num, ?_⟩
  · norm_num [Controller.init, PIDState.evaluate, pyMin, pyMax]
  · norm_num [Controller.init, Controller.distance_callback, PIDState.evaluate, pyMin, pyMax,
      pyBool, pyAbs, Controller.publish]

/-- C4 amended: for every distance sample processed while `target_reached` is
false (on a live, non-destroyed node) for which neither branch condition
holds, exactly one zero-velocity command — the default `Twist`, all
components zero — is published for that sample (rather than no command, as
claimed). -/
theorem Controller.suppressed_branch_publishes_zero (s : Controller) (m : ℚ)
    (ht : s.target_reached = false) (hd : s.destroyed = false)
    (hc : 0 ≤ pyMax (pyMin (s.pid_distance.evaluate (m - 13)).1 (1/5)) (-(1/5)))
    (he1 : m - 13 ≤ 3/10) (he2 : 0 ≤ m - 13) :
    (s.distance_callback m).2 = [{ linear_x := 0, angular_z := 0 }] := by
  have hnlt : ¬(m - 13 < 0) := not_lt.mpr he2
  simp only [Controller.distance_callback]
  rw [if_neg (by simp [ht])]
  rw [if_neg (by push_neg; exact ⟨hc, he1⟩)]
  rw [if_neg (by norm_num [pyAbs, pyBool, hnlt])]
  simp [Controller.publish, hd]

/-- Witness for C4 amended: the initial state processing `13.2` delivers
exactly the all-zero `Twist`. -/
theorem Controller.suppressed_branch_publishes_zero_witness :
    (Controller.init.target_reached = false ∧ Controller.init.destroyed = false ∧
      0 ≤ pyMax (pyMin (Controller.init.pid_distance.evaluate (66/5 - 13)).1 (1/5)) (-(1/5)) ∧
      (66/5 : ℚ) - 13 ≤ 3/10 ∧ (0 : ℚ) ≤ 66/5 - 13) ∧
    (Controller.init.distance_callback (66/5)).2 = [{ linear_x := 0, angular_z := 0 }] := by
  have hc :
      0 ≤ pyMax (pyMin (Controller.init.pid_distance.evaluate (66/5 - 13)).1 (1/5)) (-(1/5)) := by
    norm_num [Controller.init, PIDState.evaluate, pyMin, pyMax]
  exact ⟨⟨rfl, rfl, hc, by norm_num, by norm_num⟩,
    Controller.suppressed_branch_publishes_zero Controller.init (66/5) rfl rfl hc
      (by norm_num) (by norm_num)⟩

/-- C5: when the first branch of the distance loop is not taken (clamped
control signal ≥ 0 and error ≤ 0.3), the second branch's guard
`abs(distance_error < 0)` is the Python `abs` of a boolean (0 or 1), truthy
exactly when `distance_error < 0`; when it fires, `distance_correct` is set
to false and the published command's linear velocity is the negated clamped
control signal. -/
theorem Controller.backward_branch (s : Controller) (m : ℚ)
    (ht : s.target_reached = false) (hd : s.destroyed = false)
    (hc : 0 ≤ pyMax (pyMin (s.pid_distance.evaluate (m - 13)).1 (1/5)) (-(1/5)))
    (he : m - 13 ≤ 3/10) :
    (pyAbs (pyBool (decide (m - 13 < 0))) ≠ 0 ↔ m - 13 < 0) ∧
    (m - 13 < 0 →
      (s.distance_callback m).1.distance_correct = false ∧
      (s.distance_callback m).2 =
        [{ linear_x := -(pyMax (pyMin (s.pid_distance.evaluate (m - 13)).1 (1/5)) (-(1/5))),
           angular_z := 0 }]) := by
  constructor
  · by_cases hlt : m - 13 < 0 <;> simp [pyAbs, pyBool, hlt]
  · intro hlt
    simp only [Controller.distance_callback]
    rw [if_neg (by simp [ht])]
    rw [if_neg (by push_neg; exact ⟨hc, he⟩)]
    rw [if_pos (by norm_num [pyAbs, pyBool, hlt])]
    simp [Controller.publish, hd]

/-- Witness for C5: a state whose distance PID carries a large positive
integral makes the clamped signal `0.2` while the sample `12.0` has error
`-1`; the second branch fires, clears `distance_correct`, and publishes
linear velocity `-0.2`. -/
theorem Controller.backward_branch_witness :
    (({ Controller.init with
        pid_distance := { kp := 1, ki := 1/5, kd := 0, setpoint := 6,
                          integral := 100, prevError := 0 } } : Controller).target_reached
        = false ∧
      ({ Controller.init with
        pid_distance := { kp := 1, ki := 1/5, kd := 0, setpoint := 6,
                          integral := 100, prevError := 0 } } : Controller).destroyed = false ∧
      0 ≤ pyMax (pyMin ((({ Controller.init with
        pid_distance := { kp := 1, ki := 1/5, kd := 0, setpoint := 6,
                          integral := 100, prevError := 0 } } : Controller).pid_distance.evaluate
          (12 - 13)).1) (1/5)) (-(1/5)) ∧
      (12 : ℚ) - 13 ≤ 3/10) ∧
    (pyAbs (pyBool (decide ((12 : ℚ) - 13 < 0))) ≠ 0 ↔ (12 : ℚ) - 13 < 0) ∧
    ((12 : ℚ) - 13 < 0 ∧
      (({ Controller.init with
        pid_distance := { kp := 1, ki := 1/5, kd := 0, setpoint := 6,
                          integral := 100, prevError := 0 } } : Controller).distance_callback
          12).1.distance_correct = false ∧
      (({ Controller.init with
        pid_distance := { kp := 1, ki := 1/5, kd := 0, setpoint := 6,
                          integral := 100, prevError := 0 } } : Controller).distance_callback
          12).2 =
        [{ linear_x := -(pyMax (pyMin ((({ Controller.init with
            pid_distance := { kp := 1, ki := 1/5, kd := 0, setpoint := 6,
                              integral := 100, prevError := 0 } } : Controller).pid_distance.evaluate
              (12 - 13)).1) (1/5)) (-(1/5))),
           angular_z := 0 }]) := by
  have hc :
      0 ≤ pyMax (pyMin ((({ Controller.init with
        pid_distance := { kp := 1, ki := 1/5, kd := 0, setpoint := 6,
                          integral := 100, prevError := 0 } } : Controller).pid_distance.evaluate
          (12 - 13)).1) (1/5)) (-(1/5)) := by
    norm_num [Controller.init, PIDState.evaluate, pyMin, pyMax]
  refine ⟨⟨rfl, rfl, hc, by norm_num⟩,
    (Controller.backward_branch _ 12 rfl rfl hc (by norm_num)).1, by norm_num, ?_⟩
  exact (Controller.backward_branch _ 12 rfl rfl hc (by norm_num)).2 (by norm_num)

/-- C6: an angle sample in the dead-band (`0 < |v| ≤ 0.055`) processed while
`target_reached` is false (on a live node) commands angular velocity exactly
`0.0`, sets `angle_correct`, logs the sample, and changes nothing else: the
orientation PID is not evaluated, neither turn counter changes, and no
termination check is invoked (in particular `target_reached` stays false even
if `distance_correct` is already true). -/
theorem Controller.deadband (s : Controller) (v : ℚ)
    (ht : s.target_reached = false) (hd : s.destroyed = false)
    (h1 : 0 < pyAbsQ v) (h2 : pyAbsQ v ≤ 11/200) :
    s.angles_callback v =
      ({ s with
          angle_correct := true
          orientation_errors := s.orientation_errors ++ [v] },
        [{ linear_x := 0, angular_z := 0 }]) := by
  simp only [Controller.angles_callback, ht]
  rw [if_neg (by simp [ht])]
  rw [if_pos ⟨h1, h2⟩]
  simp [Controller.publish, hd]

/-- Witness for C6: the initial state processing the in-band sample `0.05`
returns the expected state and the zero command. -/
theorem Controller.deadband_witness :
    (Controller.init.target_reached = false ∧ Controller.init.destroyed = false ∧
      0 < pyAbsQ (1/20) ∧ pyAbsQ (1/20) ≤ 11/200) ∧
    Controller.init.angles_callback (1/20) =
      ({ Controller.init with
          angle_correct := true
          orientation_errors := Controller.init.orientation_errors ++ [1/20] },
        [{ linear_x := 0, angular_z := 0 }]) := by
  have h1 : (0 : ℚ) < pyAbsQ (1/20) := by norm_num [pyAbsQ]
  have h2 : pyAbsQ (1/20 : ℚ) ≤ 11/200 := by norm_num [pyAbsQ]
  exact ⟨⟨rfl, rfl, h1, h2⟩, Controller.deadband Controller.init (1/20) rfl rfl h1 h2⟩

/-- The clamp `max(min(x, h), -h)` keeps magnitudes at most `h`. -/
theorem clamp_abs_le (x h : ℚ) (hh : 0 ≤ h) : |pyMax (pyMin x h) (-h)| ≤ h := by
  unfold pyMin pyMax
  split_ifs <;> (rw [abs_le]; constructor <;> linarith)

/-- C8: for every PID state and input error, the clamped distance control
signal has magnitude at most `0.2` and the clamped orientation control signal
has magnitude at most `0.1`; consequently every command delivered by the
distance callback has `|linear.x| ≤ 0.2` and every command delivered by the
angle callback has `|angular.z| ≤ 0.1`. -/
theorem Controller.command_bounds (p : PIDState) (e : ℚ) (s : Controller) (m v : ℚ) :
    |pyMax (pyMin (p.evaluate e).1 (1/5)) (-(1/5))| ≤ 1/5 ∧
    |pyMax (pyMin (p.evaluate e).1 (1/10)) (-(1/10))| ≤ 1/10 ∧
    ((s.distance_callback m).2.all fun t => decide (|t.linear_x| ≤ 1/5)) = true ∧
    ((s.angles_callback v).2.all fun t => decide (|t.angular_z| ≤ 1/10)) = true := by
  refine ⟨clamp_abs_le _ _ (by norm_num), clamp_abs_le _ _ (by norm_num), ?_, ?_⟩
  · have hb := clamp_abs_le (s.pid_distance.evaluate (m - 13)).1 (1/5) (by norm_num)
    rw [List.all_eq_true]
    intro t htm
    rw [decide_eq_true_eq]
    simp only [Controller.distance_callback, Controller.publish,
      Controller.destroy_node] at htm
    split_ifs at htm <;> simp_all
  · have hb := clamp_abs_le (s.pid_orientation.evaluate v).1 (1/10) (by norm_num)
    rw [List.all_eq_true]
    intro t htm
    rw [decide_eq_true_eq]
    simp only [Controller.angles_callback, Controller.publish,
      Controller.destroy_node] at htm
    split_ifs at htm <;> simp_all

/-- Witness for C7: on a concrete terminal state, both callbacks return the
state unchanged and deliver nothing. -/
theorem Controller.callbacks_noop_after_target_witness :
    ({ Controller.init with target_reached := true } : Controller).target_reached = true ∧
    ({ Controller.init with target_reached := true } : Controller).distance_callback 14 =
      ({ Controller.init with target_reached := true }, []) ∧
    ({ Controller.init with target_reached := true } : Controller).angles_callback (1/2) =
      ({ Controller.init with target_reached := true }, []) :=
  ⟨rfl, Controller.callbacks_noop_after_target _ 14 (1/2) rfl⟩

/-- One dispatched message, from a state where destruction implies
termination, preserves that implication and changes each turn counter by
exactly the number of delivered commands whose angular velocity has the
corresponding sign. -/
theorem Controller.step_turns (s : Controller) (e : Event)
    (hinv : s.destroyed = true → s.target_reached = true) :
    ((s.step e).1.destroyed = true → (s.step e).1.target_reached = true) ∧
    (s.step e).1.left_turns =
      s.left_turns + ((s.step e).2.countP fun t => decide (t.angular_z < 0)) ∧
    (s.step e).1.right_turns =
      s.right_turns + ((s.step e).2.countP fun t => decide (0 < t.angular_z)) := by
  by_cases ht : s.target_reached = true
  · rw [Controller.step_of_target_reached s e ht]
    exact ⟨hinv, by simp, by simp⟩
  · rw [Bool.not_eq_true] at ht
    have hdst : s.destroyed = false := by
      by_contra hx
      rw [Bool.not_eq_false] at hx
      rw [hinv hx] at ht
      exact absurd ht (by simp)
    cases e with
    | dist x =>
      simp only [Controller.step, Controller.distance_callback, Controller.publish,
        Controller.destroy_node]
      split_ifs <;> simp_all [List.countP_cons]
    | ang y =>
      simp only [Controller.step, Controller.angles_callback, Controller.publish,
        Controller.destroy_node, Controller.check_target_reached]
      split_ifs <;> simp_all [List.countP_cons]
      all_goals linarith

/-- Along a whole run, each turn counter grows by exactly the number of
delivered commands whose angular velocity has the corresponding sign. -/
theorem Controller.run_turns (s : Controller) (evs : List Event)
    (hinv : s.destroyed = true → s.target_reached = true) :
    ((s.run evs).1.destroyed = true → (s.run evs).1.target_reached = true) ∧
    (s.run evs).1.left_turns =
      s.left_turns + ((s.run evs).2.countP fun t => decide (t.angular_z < 0)) ∧
    (s.run evs).1.right_turns =
      s.right_turns + ((s.run evs).2.countP fun t => decide (0 < t.angular_z)) := by
  induction evs generalizing s with
  | nil => simpa [Controller.run] using hinv
  | cons e es ih =>
    obtain ⟨hinv1, hl1, hr1⟩ := Controller.step_turns s e hinv
    obtain ⟨hinv2, hl2, hr2⟩ := ih (s.step e).1 hinv1
    refine ⟨?_, ?_, ?_⟩ <;>
      simp only [Controller.run, List.countP_append] <;>
      [exact hinv2; omega; omega]

/-- Per-element split of the nonzero count into the negative and positive
counts. -/
theorem countP_angular_split (l : List Twist) :
    (l.countP fun t => decide (t.angular_z ≠ 0)) =
      (l.countP fun t => decide (t.angular_z < 0)) +
        (l.countP fun t => decide (0 < t.angular_z)) := by
  induction l with
  | nil => simp
  | cons a l ih =>
    simp only [List.countP_cons, ih]
    rcases lt_trichotomy a.angular_z 0 with h | h | h
    · simp [h, h.ne, not_lt_of_lt h]
      omega
    · simp [h]
    · simp [h, h.ne', not_lt_of_lt h]
      omega

/-- C9: over any run from the initial state, `left_turns` equals the number
of delivered commands with negative angular velocity, `right_turns` the
number with positive angular velocity, their sum the number with nonzero
angular velocity (zero-velocity commands — the dead-band branch and every
distance command — increment neither), and both counters are non-decreasing
as the run is extended. -/
theorem Controller.turn_accounting (evs evs₂ : List Event) :
    (Controller.init.run evs).1.left_turns =
      ((Controller.init.run evs).2.countP fun t => decide (t.angular_z < 0)) ∧
    (Controller.init.run evs).1.right_turns =
      ((Controller.init.run evs).2.countP fun t => decide (0 < t.angular_z)) ∧
    (Controller.init.run evs).1.left_turns + (Controller.init.run evs).1.right_turns =
      ((Controller.init.run evs).2.countP fun t => decide (t.angular_z ≠ 0)) ∧
    (Controller.init.run evs).1.left_turns ≤
      (Controller.init.run (evs ++ evs₂)).1.left_turns ∧
    (Controller.init.run evs).1.right_turns ≤
      (Controller.init.run (evs ++ evs₂)).1.right_turns := by
  have h0 : Controller.init.destroyed = true → Controller.init.target_reached = true := by
    intro h
    exact absurd h (by simp [Controller.init])
  obtain ⟨hinv, hl, hr⟩ := Controller.run_turns Controller.init evs h0
  obtain ⟨_, hl2, hr2⟩ := Controller.run_turns (Controller.init.run evs).1 evs₂ hinv
  have happ := Controller.run_append Controller.init evs evs₂
  have hzl : Controller.init.left_turns = 0 := rfl
  have hzr : Controller.init.right_turns = 0 := rfl
  rw [hzl, Nat.zero_add] at hl
  rw [hzr, Nat.zero_add] at hr
  refine ⟨hl, hr, ?_, ?_, ?_⟩
  · rw [countP_angular_split]
    omega
  · rw [happ]
    dsimp only
    omega
  · rw [happ]
    dsimp only
    omega
